import Mathlib

/-!
Verification of the local-mcp-server tool-execution gateway.

This file gives a shallow embedding, in Lean 4, of the security-critical
parts of the server's Python source:

* `src/server/src/local_mcp/sanitization.py` — `InputSanitizer.sanitize_path`,
  `InputSanitizer.sanitize_string_value`, `InputSanitizer.detect_prompt_injection`,
  and `SensitiveDataRedactor` (`_redact_string`, `redact_dict`);
* `src/server/src/local_mcp/executor_limits.py` — `RateLimiter.check_rate_limit`,
  `RateLimiter.reset`, and the `ExecutionController` acquire/release protocol;
* `src/server/src/local_mcp/executor.py` — the control flow of
  `ScriptExecutor.execute_script_structured` and `_run_subprocess_structured`;
* `src/server/src/local_mcp/discovery.py` — the registry-merge steps of
  `_analyze_python_script` and `_analyze_shell_script`;
* `src/server/src/local_mcp/config.py` — the `ScriptConfig` data model.

Filesystem effects (symlink resolution) are abstracted as an explicit
resolution function passed to the embedded `sanitize_path`; effectful calls
made by the executor (config lookup, rate-limit outcome, subprocess outcome)
are supplied as an explicit environment, and the executor model additionally
returns the list of admission/subprocess events it performs, so that
slot-accounting properties can be stated as trace properties.
-/

/-! ## Character-list utilities

Executable substring machinery (used to model Python's `in`, `str.lower`,
and `re.search` on literal alternations). -/

/-- Predicate: `leadsWith l p` is true when the list `p` is an initial segment of `l`. -/
def leadsWith {α : Type} [DecidableEq α] : List α → List α → Bool
  | _, [] => true
  | [], _ :: _ => false
  | a :: as, b :: bs => a = b && leadsWith as bs

/-- Predicate: `containsSub needle hay` is true when `needle` occurs contiguously in `hay`
(Python `needle in hay`). -/
def containsSub (needle : List Char) : List Char → Bool
  | [] => needle == []
  | c :: cs => leadsWith (c :: cs) needle || containsSub needle cs

/-- ASCII lower-casing of a string, character by character (Python `str.lower()`
restricted to ASCII, which covers every pattern the sanitizer uses). -/
def lowerStr (s : String) : String :=
  String.mk (s.data.map Char.toLower)

/-! ## Path model (`sanitization.py`)

A Python `pathlib.Path` is modelled by its anchor (absolute or not) and its
list of components (`Path.parts` without the root entry).  The filesystem's
canonicalization (`Path.resolve()`, which expands symlinks and normalizes
`..`) cannot be computed without a filesystem, so it is passed to the
embedded `sanitize_path` as an explicit function `fs : PPath → PPath`. -/

structure PPath where
  isAbs : Bool
  comps : List String
deriving DecidableEq, Repr

/-- Split a string on `/` characters (helper for `parsePath`). -/
def splitSlashAux (cur : List Char) : List Char → List String
  | [] => [String.mk cur.reverse]
  | c :: cs =>
      if c = '/' then String.mk cur.reverse :: splitSlashAux [] cs
      else splitSlashAux (c :: cur) cs

/-- Parse a POSIX path string the way `pathlib.Path` does: the path is
absolute iff it starts with `/`; `parts` drops empty components and `.`
components. -/
def parsePath (s : String) : PPath :=
  { isAbs := match s.data with
      | c :: _ => c = '/'
      | [] => false
    comps := (splitSlashAux [] s.data).filter (fun c => c != "" && c != ".") }

/-- Python `base / p`: if `p` is absolute it replaces `base`, otherwise the
components are concatenated. -/
def joinPath (base p : PPath) : PPath :=
  if p.isAbs then p else { isAbs := base.isAbs, comps := base.comps ++ p.comps }

/-- Python `child.relative_to(base)` succeeds iff the anchors agree and
`base`'s parts are an initial segment of `child`'s parts; `sanitize_path`
uses the success of that call as its containment test. -/
def isDescendant (child base : PPath) : Bool :=
  child.isAbs == base.isAbs && leadsWith child.comps base.comps

/-- Rendering of a `PPath` as Python's `str(Path)` (used in error messages). -/
def ppathStr (p : PPath) : String :=
  if p.isAbs then "/" ++ String.intercalate "/" p.comps
  else if p.comps.isEmpty then "." else String.intercalate "/" p.comps

/-- The `resolved_test` value `sanitize_path` computes for a candidate base
(executor lines 296-312): an absolute input is resolved on its own, a
relative input is joined against the base first; resolution is skipped when
`follow_symlinks` is false. -/
def resolveAgainst (fs : PPath → PPath) (followSymlinks : Bool)
    (base pObj : PPath) : PPath :=
  if pObj.isAbs then (if followSymlinks then fs pObj else pObj)
  else (if followSymlinks then fs (joinPath base pObj) else joinPath base pObj)

/-- The base-matching loop of `InputSanitizer.sanitize_path` (lines 294-327):
try each allowed base in order, accept the first base whose resolved
candidate stays a descendant of the resolved base. -/
def findBase (fs : PPath → PPath) (pObj : PPath) (followSymlinks : Bool) :
    List PPath → Option (PPath × PPath)
  | [] => none
  | base :: rest =>
      let resolvedTest := resolveAgainst fs followSymlinks base pObj
      if isDescendant resolvedTest (fs base) then some (resolvedTest, base)
      else findBase fs pObj followSymlinks rest

/-- Result triple of `sanitize_path`: `(is_valid, resolved_path, error_message)`. -/
structure PathResult where
  ok : Bool
  resolved : Option PPath
  msg : String
deriving DecidableEq, Repr

def MAX_PATH_LENGTH : Nat := 4096

/-- Embedding of `InputSanitizer.sanitize_path` (sanitization.py lines 243-353), with the
filesystem's `Path.resolve` abstracted as `fs`.  The check order mirrors the
source: empty, length, absolute-not-allowed, literal `..` component, then the
base-matching loop; no match is a hard rejection listing the allowed bases. -/
def sanitize_path (fs : PPath → PPath) (path : String) (allowedBases : List PPath)
    (allowAbsolute : Bool) (followSymlinks : Bool) : PathResult :=
  if path = "" then
    { ok := false, resolved := none, msg := "Path cannot be empty" }
  else if MAX_PATH_LENGTH < path.length then
    { ok := false, resolved := none,
      msg := "Path too long: " ++ toString path.length ++ " > "
               ++ toString MAX_PATH_LENGTH }
  else
    let pObj := parsePath path
    if pObj.isAbs && !allowAbsolute then
      { ok := false, resolved := none,
        msg := "Absolute paths not allowed for this tool: " ++ path }
    else if pObj.comps.contains ".." then
      { ok := false, resolved := none,
        msg := "Parent directory references (..) not allowed: " ++ path }
    else
      match findBase fs pObj followSymlinks allowedBases with
      | some (resolved, _) => { ok := true, resolved := some resolved, msg := "" }
      | none =>
          { ok := false, resolved := none,
            msg := "Path not within allowed directories: " ++ path
                     ++ "\nAllowed bases: "
                     ++ String.intercalate ", " (allowedBases.map ppathStr) }

/-- A concrete model filesystem with no symlinks: `resolve` just normalizes
`..` components lexically.  Used to instantiate `fs` in concrete examples. -/
def normComps (cs : List String) : List String :=
  cs.foldl (fun acc c => if c = ".." then acc.dropLast else acc ++ [c]) []

/-- Concrete resolver for the symlink-free model filesystem. -/
def normResolve (p : PPath) : PPath :=
  { isAbs := p.isAbs, comps := normComps p.comps }

/-! ## String sanitization (`sanitization.py` lines 203-423) -/

def MAX_STRING_LENGTH : Nat := 1000000

/-- The literal alternation of `InputSanitizer.PROMPT_INJECTION`
(sanitization.py lines 208-211), matched case-insensitively. -/
def promptInjectionPhrases : List String :=
  ["ignore", "disregard", "new instructions", "system message",
   "always confirm", "do not ask"]

/-- Embedding of `InputSanitizer.detect_prompt_injection` (lines 413-423): a bare
case-insensitive substring search for any of the fixed phrases. -/
def detect_prompt_injection (text : String) : Bool :=
  promptInjectionPhrases.any (fun p => containsSub p.data (lowerStr text).data)

/-- The effective maximum length `sanitize_string_value` uses: Python's
`max_length or MAX_STRING_LENGTH`, where both `None` and `0` fall back to
the default (Python falsiness). -/
def effectiveMaxLen (maxLength : Option Nat) : Nat :=
  match maxLength with
  | some n => if n = 0 then MAX_STRING_LENGTH else n
  | none => MAX_STRING_LENGTH

/-- Embedding of `InputSanitizer.sanitize_string_value` (lines 355-389), returning
`(is_valid, value, error_message)`.  The input is already a string in this
embedding, so the `isinstance` guard is omitted. -/
def sanitize_string_value (value : String) (maxLength : Option Nat)
    (checkPromptInjection : Bool) : Bool × String × String :=
  let maxLen := effectiveMaxLen maxLength
  if maxLen < value.length then
    (false, "", "String too long: " ++ toString value.length ++ " > "
                  ++ toString maxLen)
  else if value.data.contains (Char.ofNat 0) then
    (false, "", "String contains null bytes")
  else if checkPromptInjection && detect_prompt_injection value then
    (false, "", "Potential prompt injection detected in value")
  else
    (true, value, "")

/-! ## Sensitive-data redaction (`sanitization.py` lines 23-136)

Python values are modelled by `PyVal`; non-string scalars collapse to
`PyVal.other` since the redactor only distinguishes strings, dicts and
lists.  The regex scan of `SensitiveDataRedactor.PATTERNS` over string
values needs no internal structure for the claims below, so it is
abstracted as a function `patternHit : String → Option String` returning
the name of the first matching pattern, if any. -/

inductive PyVal where
  | str (s : String)
  | dict (entries : List (String × PyVal))
  | list (items : List PyVal)
  | other
deriving Repr

/-- The sensitive-key vocabulary `SensitiveDataRedactor.SENSITIVE_KEYS`
(lines 27-39). -/
def SENSITIVE_KEYS : List String :=
  ["password", "passwd", "pwd",
   "secret", "token", "key", "api_key", "apikey", "api-key",
   "authorization", "auth", "auth_token",
   "private_key", "private-key", "privatekey",
   "access_key", "access-key", "accesskey",
   "secret_key", "secret-key", "secretkey",
   "ssn", "social_security",
   "credit_card", "creditcard", "ccn", "card_number",
   "pin", "cvv", "cvc",
   "bearer", "oauth", "session",
   "cookie", "csrf"]

/-- A key is sensitive when any vocabulary entry (or caller-supplied extra
key) occurs as a substring of the lower-cased key (line 82). -/
def isSensitiveKey (extraKeys : List String) (key : String) : Bool :=
  (SENSITIVE_KEYS ++ extraKeys).any
    (fun sk => containsSub sk.data (lowerStr key).data)

/-- Embedding of `SensitiveDataRedactor._redact_string` (lines 126-136).  Note the
`partial` branch applies only to values longer than 8 characters; shorter
values fall through to the full placeholder. -/
def redactString (value : String) (redactionStyle : String) (reason : String) :
    String :=
  if redactionStyle = "full" then "***REDACTED***"
  else if redactionStyle = "partial" ∧ 8 < value.length then
    String.mk (value.data.take 3) ++ "***"
      ++ String.mk (value.data.drop (value.length - 3))
  else if redactionStyle = "hint" then
    "<redacted:" ++ toString value.length ++ "_chars:" ++ reason ++ ">"
  else "***REDACTED***"

/-- Embedding of `SensitiveDataRedactor._redact_value` (lines 111-124) with the pattern
scan abstracted as `patternHit`. -/
def redactScalar (patternHit : String → Option String) (redactionStyle : String)
    (scanValues : Bool) : PyVal → PyVal
  | PyVal.str s =>
      if scanValues then
        match patternHit s with
        | some patternName =>
            PyVal.str (redactString s redactionStyle ("pattern:" ++ patternName))
        | none => PyVal.str s
      else PyVal.str s
  | v => v

mutual

/-- Embedding of `SensitiveDataRedactor.redact_dict` (lines 54-109), entry list form. -/
def redactEntries (patternHit : String → Option String) (extraKeys : List String)
    (redactionStyle : String) (scanValues : Bool) :
    List (String × PyVal) → List (String × PyVal)
  | [] => []
  | e :: es =>
      redactEntry patternHit extraKeys redactionStyle scanValues e
        :: redactEntries patternHit extraKeys redactionStyle scanValues es

/-- One `(key, value)` step of `redact_dict`'s loop (lines 78-107). -/
def redactEntry (patternHit : String → Option String) (extraKeys : List String)
    (redactionStyle : String) (scanValues : Bool) :
    String × PyVal → String × PyVal
  | (key, value) =>
      if isSensitiveKey extraKeys key then
        match value with
        | PyVal.str s =>
            (key, PyVal.str (redactString s redactionStyle ("key:" ++ key)))
        | _ => (key, PyVal.str "***REDACTED***")
      else
        match value with
        | PyVal.dict es =>
            (key, PyVal.dict (redactEntries patternHit extraKeys redactionStyle
              scanValues es))
        | PyVal.list items =>
            (key, PyVal.list (redactItems patternHit extraKeys redactionStyle
              scanValues items))
        | v => (key, redactScalar patternHit redactionStyle scanValues v)

/-- The list comprehension of `redact_dict` (lines 99-104): dict items are
recursed into, every other item goes through `_redact_value`. -/
def redactItems (patternHit : String → Option String) (extraKeys : List String)
    (redactionStyle : String) (scanValues : Bool) : List PyVal → List PyVal
  | [] => []
  | PyVal.dict es :: rest =>
      PyVal.dict (redactEntries patternHit extraKeys redactionStyle scanValues es)
        :: redactItems patternHit extraKeys redactionStyle scanValues rest
  | item :: rest =>
      redactScalar patternHit redactionStyle scanValues item
        :: redactItems patternHit extraKeys redactionStyle scanValues rest

end

/-! ## Rate limiting (`executor_limits.py` lines 190-295)

`time.time()` values are modelled as rationals and passed explicitly as
`now`.  The per-tool `defaultdict` of deques is modelled as a function from
tool names (any type with decidable equality) to timestamp lists, oldest
first. -/

structure RateLimiter (τ : Type) where
  max_per_minute : Nat
  enabled : Bool
  window_seconds : ℚ
  executions : τ → List ℚ

/-- A freshly constructed, enabled `RateLimiter` (constructor lines 193-209). -/
def rateLimiterInit (τ : Type) (maxExecutionsPerMinute : Nat) : RateLimiter τ :=
  { max_per_minute := maxExecutionsPerMinute
    enabled := true
    window_seconds := 60
    executions := fun _ => [] }

/-- The `while tool_executions and tool_executions[0] < window_start:
popleft()` loop (lines 232-233). -/
def dropOldAux (windowStart : ℚ) : List ℚ → List ℚ
  | [] => []
  | t :: ts => if t < windowStart then dropOldAux windowStart ts else t :: ts

/-- Embedding of `RateLimiter.check_rate_limit` (lines 211-257), returning
`(is_allowed, wait_seconds)` plus the updated limiter state.  The `[]` case
under the limit check is unreachable for a positive per-minute cap (Python
would raise `IndexError` reading `tool_executions[0]` there). -/
def check_rate_limit {τ : Type} [DecidableEq τ] (rl : RateLimiter τ) (tool : τ)
    (now : ℚ) : Bool × Option ℚ × RateLimiter τ :=
  if !rl.enabled then (true, none, rl)
  else
    let windowStart := now - rl.window_seconds
    let kept := dropOldAux windowStart (rl.executions tool)
    if rl.max_per_minute ≤ kept.length then
      match kept with
      | [] =>
          (false, none,
            { rl with executions := fun t => if t = tool then kept
                else rl.executions t })
      | oldest :: _ =>
          (false, some (oldest + rl.window_seconds - now),
            { rl with executions := fun t => if t = tool then kept
                else rl.executions t })
    else
      (true, none,
        { rl with executions := fun t => if t = tool then kept ++ [now]
            else rl.executions t })

/-- Embedding of `RateLimiter.reset` (lines 284-295): clear one tool's queue, or all. -/
def rateLimiterReset {τ : Type} [DecidableEq τ] (rl : RateLimiter τ)
    (tool : Option τ) : RateLimiter τ :=
  match tool with
  | some t => { rl with executions := fun x => if x = t then [] else rl.executions x }
  | none => { rl with executions := fun _ => [] }

/-- Run a sequence of `check_rate_limit` calls for one tool at the given
times, collecting the `(is_allowed, wait_seconds)` results. -/
def runSeq {τ : Type} [DecidableEq τ] (rl : RateLimiter τ) (tool : τ) :
    List ℚ → List (Bool × Option ℚ) × RateLimiter τ
  | [] => ([], rl)
  | now :: rest =>
      let step := check_rate_limit rl tool now
      let tail := runSeq step.2.2 tool rest
      ((step.1, step.2.1) :: tail.1, tail.2)

/-- The outcome sequence the rate-limiting claim predicts for calls made
within one second of the first call `t0`: while fewer than `N` timestamps
are recorded the call is admitted; afterwards each call is rejected with
wait time `t0 + 60 - now` (the time until the oldest entry leaves the
window). -/
def expectedResults (N recorded : Nat) (t0 : ℚ) : List ℚ → List (Bool × Option ℚ)
  | [] => []
  | now :: rest =>
      if recorded < N then (true, none) :: expectedResults N (recorded + 1) t0 rest
      else (false, some (t0 + 60 - now)) :: expectedResults N recorded t0 rest

/-! ## Script configuration (`config.py` lines 15-51) -/

structure ParamSpec where
  pname : String
  ptype : String
  pdescription : String
  prequired : Bool
deriving DecidableEq, Repr

/-- Embedding of `WorkspaceConfig` (config.py lines 15-28). -/
structure WorkspaceConfig where
  allowed_paths : List String
  allow_absolute_paths : Bool
  follow_symlinks : Bool
  create_workspace : Bool
  max_string_length : Option Nat
  check_prompt_injection : Bool
  max_output_length : Option Nat
deriving DecidableEq, Repr

/-- The pydantic defaults of `WorkspaceConfig`. -/
def workspaceConfigDefault : WorkspaceConfig :=
  { allowed_paths := ["{TOOL_DIR}/workspace"]
    allow_absolute_paths := false
    follow_symlinks := true
    create_workspace := true
    max_string_length := none
    check_prompt_injection := true
    max_output_length := none }

/-- Embedding of `ScriptConfig` (config.py lines 31-50). -/
structure ScriptConfig where
  name : String
  title : Option String
  description : String
  script_path : String
  script_type : String
  requires_confirmation : Bool
  parameters : List ParamSpec
  interactive : Bool
  wrapper_function : Option String
  dependencies : List String
  examples : List String
  tags : List String
  enabled : Bool
  workspace_config : WorkspaceConfig
  read_only : Bool
  destructive : Bool
deriving DecidableEq, Repr

/-! ## Executor (`executor.py`)

The control flow of `ScriptExecutor.execute_script_structured` is embedded
as a pure function of an environment that supplies the outcome of each
effectful call (config lookup, rate-limit decision, security validation,
script-existence test, subprocess behaviour).  The function also returns
the ordered list of admission and subprocess events it performs, so that
slot accounting (`acquire`/`release` balance) and "the script process was
never spawned" are trace propositions. -/

inductive ExecEvent where
  | acquireSlot
  | releaseSlot
  | spawnProcess
  | killProcess
  | waitProcess
deriving DecidableEq, Repr

/-- A Python scalar argument value, with Python truthiness (used for
`arguments.get('confirm', False)`). -/
inductive PyLit where
  | pyBool (b : Bool)
  | pyStr (s : String)
  | pyInt (n : Int)
  | pyNone
deriving DecidableEq, Repr

def PyLit.truthy : PyLit → Bool
  | .pyBool b => b
  | .pyStr s => !s.isEmpty
  | .pyInt n => n != 0
  | .pyNone => false

/-- Python `arguments.get(key, default)` over keyword arguments. -/
def argGet (arguments : List (String × PyLit)) (key : String) (dflt : PyLit) :
    PyLit :=
  match arguments.find? (fun kv => kv.1 = key) with
  | some kv => kv.2
  | none => dflt

/-- Embedding of `ToolExecutionResult` (executor.py lines 34-58).  `execution_time` is
wall-clock (supplied by the environment where the code reads the clock). -/
structure ToolExecutionResult where
  success : Bool
  exit_code : Int
  stdout : String
  stderr : String
  execution_time : ℚ
  error_type : Option String
  tool_metadata : List (String × String)
deriving DecidableEq, Repr

/-- Python `dict.update` over association lists (for `result.tool_metadata.update`). -/
def assocSet (l : List (String × String)) (key v : String) :
    List (String × String) :=
  if l.any (fun kv => kv.1 = key) then
    l.map (fun kv => if kv.1 = key then (key, v) else kv)
  else l ++ [(key, v)]

def assocUpdate (l updates : List (String × String)) : List (String × String) :=
  updates.foldl (fun acc kv => assocSet acc kv.1 kv.2) l

/-- Behaviour of the spawned subprocess, as observed by
`_run_subprocess_structured`: normal completion, wall-clock timeout, or an
exception raised while spawning/communicating. -/
inductive SubOutcome where
  | completed (exitCode : Int) (out err : String)
  | timedOut
  | spawnRaised (msg : String)
deriving DecidableEq, Repr

/-- Embedding of `ScriptExecutor._run_subprocess_structured` (executor.py lines 341-410):
completion maps the exit code to success/`execution`; `asyncio.TimeoutError`
kills then reaps the child and reports `timeout`; any other exception is
caught and reported as `execution`.  The event list records process
creation, kill and reap. -/
def run_subprocess_structured (outcome : SubOutcome) (elapsed : ℚ)
    (timeoutSeconds : Nat) (toolName : String) :
    ToolExecutionResult × List ExecEvent :=
  match outcome with
  | .completed exitCode out err =>
      ({ success := exitCode = 0
         exit_code := exitCode
         stdout := out
         stderr := err
         execution_time := elapsed
         error_type := if exitCode = 0 then none else some "execution"
         tool_metadata := [("tool_name", toolName)] },
       [ExecEvent.spawnProcess])
  | .timedOut =>
      ({ success := false
         exit_code := -1
         stdout := ""
         stderr := "Script execution timed out after " ++ toString timeoutSeconds
                     ++ " seconds"
         execution_time := elapsed
         error_type := some "timeout"
         tool_metadata := [("tool_name", toolName)] },
       [ExecEvent.spawnProcess, ExecEvent.killProcess, ExecEvent.waitProcess])
  | .spawnRaised msg =>
      ({ success := false
         exit_code := -1
         stdout := ""
         stderr := msg
         execution_time := elapsed
         error_type := some "execution"
         tool_metadata := [("tool_name", toolName)] },
       [])

/-- Environment of one `execute_script_structured` call: the outcome of each
effectful sub-call the orchestration makes. -/
structure ExecEnv where
  /-- Result of `config.get_script_config(script_name)` -/
  script_config : Option ScriptConfig
  /-- whether `rate_limiter.check_rate_limit` admits the call inside
  `ExecutionController.acquire` (the semaphore itself always grants the slot
  eventually, so a completed `acquire` fails only on the rate check) -/
  rateAllowed : Bool
  /-- the wait time reported on rate-limit rejection -/
  rateWaitMsg : String
  /-- result of `validate_arguments_security` -/
  security_errors : List String
  /-- Result of `script_path.exists()` -/
  scriptExists : Bool
  /-- an exception raised inside `_execute_shell_script` before the
  subprocess helper runs (e.g. `chmod` failing), caught at executor
  line 245; `none` means control reaches `_run_subprocess_structured` -/
  shellRaised : Option String
  /-- behaviour of the spawned subprocess -/
  subOutcome : SubOutcome
  /-- wall-clock duration observed by the `time.time()` bracketing -/
  elapsed : ℚ
  /-- Value of `global_config.timeout_seconds` -/
  timeout_seconds : Nat

/-- Embedding of `ExecutionController.acquire` (executor_limits.py lines 318-339): a rate
rejection returns immediately with an error and takes no slot; otherwise the
semaphore slot is acquired. -/
def controllerAcquire (env : ExecEnv) (scriptName : String) :
    (Bool × Option String) × List ExecEvent :=
  if env.rateAllowed then ((true, none), [ExecEvent.acquireSlot])
  else ((false, some ("Rate limit exceeded for " ++ scriptName
          ++ ". Please wait " ++ env.rateWaitMsg ++ " seconds.")), [])

/-- Embedding of `ScriptExecutor.execute_script_structured` (executor.py lines 139-255).
The branch order mirrors the source: unknown script, disabled script,
confirmation gate, `ExecutionController.acquire`, security validation,
script existence, then the `try`/`except`/`finally` around
`_execute_shell_script`.  The `finally` releases the slot only for exits
that occur inside the `try` block — the security-validation and
missing-script returns happen between `acquire` and `try`, so no
`releaseSlot` event is emitted on those paths (this mirrors the source
faithfully; see the slot-leak theorem below). -/
def execute_script_structured (env : ExecEnv) (scriptName : String)
    (arguments : List (String × PyLit)) :
    ToolExecutionResult × List ExecEvent :=
  match env.script_config with
  | none =>
      ({ success := false, exit_code := -1, stdout := ""
         stderr := "Unknown script: " ++ scriptName
         execution_time := 0, error_type := some "validation"
         tool_metadata := [] }, [])
  | some cfg =>
      if !cfg.enabled then
        ({ success := false, exit_code := -1, stdout := ""
           stderr := "Script " ++ scriptName ++ " is disabled"
           execution_time := 0, error_type := some "validation"
           tool_metadata := [] }, [])
      else if cfg.requires_confirmation
          && !(argGet arguments "confirm" (PyLit.pyBool false)).truthy then
        ({ success := false, exit_code := -1, stdout := ""
           stderr := "Script " ++ scriptName ++ " requires confirmation. "
                       ++ "Please set 'confirm': true to execute."
           execution_time := 0, error_type := some "confirmation_required"
           tool_metadata := [] }, [])
      else
        let acq := controllerAcquire env scriptName
        if !acq.1.1 then
          ({ success := false, exit_code := -1, stdout := ""
             stderr := (acq.1.2).getD ""
             execution_time := 0, error_type := some "rate_limit"
             tool_metadata := [] }, acq.2)
        else if !env.security_errors.isEmpty then
          ({ success := false, exit_code := 1, stdout := ""
             stderr := "Security validation failed for " ++ scriptName ++ ":\n"
                         ++ String.intercalate "\n" env.security_errors
             execution_time := 0, error_type := some "security_validation"
             tool_metadata := [] }, acq.2)
        else if !env.scriptExists then
          ({ success := false, exit_code := -1, stdout := ""
             stderr := "Script not found: " ++ cfg.script_path
             execution_time := env.elapsed, error_type := some "validation"
             tool_metadata := [] }, acq.2)
        else
          match env.shellRaised with
          | some msg =>
              ({ success := false, exit_code := -1, stdout := ""
                 stderr := msg
                 execution_time := env.elapsed, error_type := some "execution"
                 tool_metadata := [("tool_name", scriptName),
                                   ("tool_type", "shell")] },
               acq.2 ++ [ExecEvent.releaseSlot])
          | none =>
              let sub := run_subprocess_structured env.subOutcome env.elapsed
                env.timeout_seconds scriptName
              ({ sub.1 with
                   execution_time := env.elapsed
                   tool_metadata := assocUpdate sub.1.tool_metadata
                     [("tool_name", scriptName), ("tool_type", "shell")] },
               acq.2 ++ sub.2 ++ [ExecEvent.releaseSlot])

/-! ## Discovery merge policy (`discovery.py` lines 232-326)

What a re-scan does to an already-registered tool.  Metadata extraction
itself (docstring/AST/comment parsing) feeds in as data; the merge steps
are embedded exactly. -/

structure PythonMetadata where
  description : String
  parameters : List ParamSpec
  examples : List String
  dependencies : List String
  interactive : Bool
deriving DecidableEq, Repr

/-- Metadata `_extract_shell_metadata` produces (lines 401-436); every field
is always present in the returned dict — in particular `interactive` is
always a bool, never `None`. -/
structure ShellMetadata where
  description : String
  parameters : List ParamSpec
  examples : List String
  interactive : Bool
deriving DecidableEq, Repr

/-- The update `_analyze_python_script` applies to an existing enabled config
(discovery.py lines 250-254): fill the description only when the current one
is empty and the extracted one is non-empty; nothing else changes. -/
def mergePythonExisting (config : ScriptConfig) (metadata : PythonMetadata) :
    ScriptConfig :=
  if config.description = "" ∧ metadata.description ≠ "" then
    { config with description := metadata.description }
  else config

/-- The update `_analyze_shell_script` applies to an existing enabled config
(discovery.py lines 295-307): description filled only when empty, but
detected parameters and examples overwrite whenever non-empty, and the
interactive flag is always overwritten (the `is not None` guard is always
true because `_extract_shell_metadata` always sets the field). -/
def mergeShellExisting (config : ScriptConfig) (metadata : ShellMetadata) :
    ScriptConfig :=
  let c1 := if config.description = "" ∧ metadata.description ≠ "" then
      { config with description := metadata.description }
    else config
  let c2 := if metadata.parameters ≠ [] then
      { c1 with parameters := metadata.parameters }
    else c1
  let c3 := { c2 with interactive := metadata.interactive }
  if metadata.examples ≠ [] then { c3 with examples := metadata.examples }
  else c3

/-- Embedding of `Config.create_default_script_config` (config.py lines 184-201) as called
from `_analyze_shell_script` (discovery.py lines 309-317). -/
def createDefaultShellConfig (scriptName relativePath : String)
    (metadata : ShellMetadata) : ScriptConfig :=
  { name := scriptName
    title := none
    description := if metadata.description = "" then
        "Auto-discovered shell script"
      else metadata.description
    script_path := relativePath
    script_type := "shell"
    requires_confirmation := true
    parameters := metadata.parameters
    interactive := metadata.interactive
    wrapper_function := none
    dependencies := []
    examples := metadata.examples
    tags := []
    enabled := true
    workspace_config := workspaceConfigDefault
    read_only := false
    destructive := false }

/-- The registry effect of `_analyze_shell_script` (discovery.py lines
277-323) on one script: `none` means the scan left the registry entry for
this tool untouched (the early return for an existing disabled config);
`some c` means the entry is set to `c`. -/
def analyzeShellScriptUpdate (existing : Option ScriptConfig)
    (metadata : ShellMetadata) (scriptName relativePath : String) :
    Option ScriptConfig :=
  match existing with
  | some cfg =>
      if !cfg.enabled then none
      else some (mergeShellExisting cfg metadata)
  | none => some (createDefaultShellConfig scriptName relativePath metadata)

/-- Embedding of `Config.create_default_script_config` as called from
`_analyze_python_script` (discovery.py lines 256-266). -/
def createDefaultPythonConfig (scriptName relativePath : String)
    (metadata : PythonMetadata) : ScriptConfig :=
  { name := scriptName
    title := none
    description := if metadata.description = "" then
        "Auto-discovered python script"
      else metadata.description
    script_path := relativePath
    script_type := "python"
    requires_confirmation := true
    parameters := metadata.parameters
    interactive := metadata.interactive
    wrapper_function := none
    dependencies := metadata.dependencies
    examples := metadata.examples
    tags := []
    enabled := true
    workspace_config := workspaceConfigDefault
    read_only := false
    destructive := false }

/-- The registry effect of `_analyze_python_script` (discovery.py lines
232-272) on one script. -/
def analyzePythonScriptUpdate (existing : Option ScriptConfig)
    (metadata : PythonMetadata) (scriptName relativePath : String) :
    Option ScriptConfig :=
  match existing with
  | some cfg =>
      if !cfg.enabled then none
      else some (mergePythonExisting cfg metadata)
  | none => some (createDefaultPythonConfig scriptName relativePath metadata)

/-! ## Concrete instances for examples

A user-edited, enabled shell tool configuration and the metadata a re-scan
would detect for it (used to exercise the discovery merge and the executor
at concrete inputs). -/

def sampleShellConfig : ScriptConfig :=
  { name := "backup_run"
    title := none
    description := "User-written backup helper"
    script_path := "backup/run.sh"
    script_type := "shell"
    requires_confirmation := true
    parameters := [{ pname := "target", ptype := "string",
                     pdescription := "Path to the target directory",
                     prequired := true }]
    interactive := false
    wrapper_function := none
    dependencies := []
    examples := ["Usage: run.sh <target>"]
    tags := []
    enabled := true
    workspace_config := workspaceConfigDefault
    read_only := false
    destructive := false }

def sampleShellMetadata : ShellMetadata :=
  { description := "Nightly backup script"
    parameters := [{ pname := "arg1", ptype := "string",
                     pdescription := "Input parameter: arg1",
                     prequired := true }]
    examples := []
    interactive := true }

/-- A baseline executor environment for concrete runs: the sample tool is
registered and enabled, the rate limit admits the call, security validation
passes, the script file exists, and the subprocess completes cleanly. -/
def baseExecEnv : ExecEnv :=
  { script_config := some sampleShellConfig
    rateAllowed := true
    rateWaitMsg := "5.0"
    security_errors := []
    scriptExists := true
    shellRaised := none
    subOutcome := SubOutcome.completed 0 "ok" ""
    elapsed := 1
    timeout_seconds := 300 }

/-! ## Helper lemmas -/

theorem leadsWith_iff {α : Type} [DecidableEq α] (p l : List α) :
    leadsWith l p = true ↔ ∃ suf, l = p ++ suf := by
  induction p generalizing l with
  | nil =>
      simp [leadsWith]
  | cons b bs ih =>
      cases l with
      | nil =>
          simp [leadsWith]
      | cons a as =>
          simp only [leadsWith, Bool.and_eq_true, decide_eq_true_eq, ih,
            List.cons_append, List.cons.injEq]
          constructor
          · rintro ⟨rfl, suf, rfl⟩
            exact ⟨suf, rfl, rfl⟩
          · rintro ⟨suf, rfl, rfl⟩
            exact ⟨rfl, suf, rfl⟩

theorem containsSub_iff (n h : List Char) :
    containsSub n h = true ↔ ∃ pre suf, h = pre ++ n ++ suf := by
  induction h with
  | nil =>
      simp only [containsSub, beq_iff_eq]
      constructor
      · rintro rfl
        exact ⟨[], [], rfl⟩
      · rintro ⟨pre, suf, hh⟩
        rcases List.append_eq_nil.mp (List.append_eq_nil.mp hh.symm).1 with ⟨-, h2⟩
        exact h2
  | cons c cs ih =>
      simp only [containsSub, Bool.or_eq_true, leadsWith_iff, ih]
      constructor
      · rintro (⟨suf, hh⟩ | ⟨pre, suf, hh⟩)
        · exact ⟨[], suf, by simp [hh]⟩
        · exact ⟨c :: pre, suf, by simp [hh]⟩
      · rintro ⟨pre, suf, hh⟩
        cases pre with
        | nil =>
            exact Or.inl ⟨suf, by simpa using hh⟩
        | cons p ps =>
            simp only [List.cons_append, List.cons.injEq] at hh
            exact Or.inr ⟨ps, suf, hh.2⟩

theorem findBase_none (fs : PPath → PPath) (pObj : PPath) (followSymlinks : Bool)
    (bases : List PPath)
    (h : ∀ b ∈ bases,
      isDescendant (resolveAgainst fs followSymlinks b pObj) (fs b) = false) :
    findBase fs pObj followSymlinks bases = none := by
  induction bases with
  | nil => rfl
  | cons b0 rest ih =>
      have hb0 := h b0 (List.mem_cons_self b0 rest)
      simp only [findBase, hb0, Bool.false_eq_true, if_false]
      exact ih (fun b hb => h b (List.mem_cons_of_mem b0 hb))

theorem findBase_unique_match (fs : PPath → PPath) (pObj : PPath)
    (followSymlinks : Bool) (bases : List PPath) (b : PPath)
    (hmem : b ∈ bases)
    (hmatch : isDescendant (resolveAgainst fs followSymlinks b pObj) (fs b) = true)
    (huniq : ∀ b' ∈ bases,
      isDescendant (resolveAgainst fs followSymlinks b' pObj) (fs b') = true →
      b' = b) :
    findBase fs pObj followSymlinks bases
      = some (resolveAgainst fs followSymlinks b pObj, b) := by
  induction bases with
  | nil => cases hmem
  | cons b0 rest ih =>
      by_cases h0 : isDescendant (resolveAgainst fs followSymlinks b0 pObj)
          (fs b0) = true
      · have hb0 : b0 = b := huniq b0 (List.mem_cons_self b0 rest) h0
        subst hb0
        simp [findBase, h0]
      · have hbne : b ≠ b0 := by
          intro he
          exact h0 (he ▸ hmatch)
        have hmem' : b ∈ rest := by
          rcases List.mem_cons.mp hmem with he | hr
          · exact absurd he hbne
          · exact hr
        have h0' : isDescendant (resolveAgainst fs followSymlinks b0 pObj)
            (fs b0) = false := by
          cases hv : isDescendant (resolveAgainst fs followSymlinks b0 pObj)
              (fs b0)
          · rfl
          · exact absurd hv h0
        simp only [findBase, h0', Bool.false_eq_true, if_false]
        exact ih hmem' (fun b' hb' hm => huniq b' (List.mem_cons_of_mem b0 hb') hm)

/-- C3: any input path whose parsed components contain a literal `..` segment
is rejected by `sanitize_path`, for every filesystem, every list of allowed
bases, and both values of `allow_absolute` and `follow_symlinks`. -/
theorem sanitize_path_rejects_parent_refs (fs : PPath → PPath) (path : String)
    (allowedBases : List PPath) (allowAbsolute followSymlinks : Bool)
    (h : (parsePath path).comps.contains ".." = true) :
    (sanitize_path fs path allowedBases allowAbsolute followSymlinks).ok
      = false := by
  simp only [sanitize_path]
  split_ifs with h1 h2 h3
  all_goals rfl

/-- Witness for C3 at a concrete input: `../secrets` contains a `..` segment
and is rejected even with absolute paths allowed and symlink following on. -/
theorem sanitize_path_rejects_parent_refs_witness :
    (parsePath "../secrets").comps.contains ".." = true
    ∧ (sanitize_path normResolve "../secrets"
        [{ isAbs := true, comps := ["ws"] }] true true).ok = false :=
  ⟨by decide,
   sanitize_path_rejects_parent_refs normResolve "../secrets"
     [{ isAbs := true, comps := ["ws"] }] true true (by decide)⟩

/-- C4: an absolute input path that is not a descendant of any allowed base
is rejected even when `allow_absolute` is true — `sanitize_path` never
accepts it and never substitutes a default base — and, whenever the path
passes the syntactic pre-checks (length, no `..` segment) so that the
base-matching loop is reached, the error message lists the attempted
bases. -/
theorem sanitize_path_absolute_unmatched (fs : PPath → PPath) (path : String)
    (allowedBases : List PPath) (followSymlinks : Bool)
    (habs : (parsePath path).isAbs = true)
    (hnomatch : ∀ b ∈ allowedBases,
      isDescendant (resolveAgainst fs followSymlinks b (parsePath path))
        (fs b) = false) :
    ((sanitize_path fs path allowedBases true followSymlinks).ok = false
      ∧ (sanitize_path fs path allowedBases true followSymlinks).resolved
          = none)
    ∧ (path.length ≤ MAX_PATH_LENGTH →
       (parsePath path).comps.contains ".." = false →
       (sanitize_path fs path allowedBases true followSymlinks).msg
         = "Path not within allowed directories: " ++ path
             ++ "\nAllowed bases: "
             ++ String.intercalate ", " (allowedBases.map ppathStr)) := by
  have hfind := findBase_none fs (parsePath path) followSymlinks allowedBases
    hnomatch
  simp only [sanitize_path]
  split_ifs with h1 h2 h3 h4
  · subst h1
    exact absurd habs (by decide)
  · exact ⟨⟨rfl, rfl⟩, fun hlen _ => absurd h2 (by omega)⟩
  · simp [habs] at h3
  · exact ⟨⟨rfl, rfl⟩, fun _ hdd => by rw [hdd] at h4; cases h4⟩
  · simp only [hfind]
    exact ⟨⟨trivial, trivial⟩, fun _ _ => trivial⟩

/-- Witness for C4 at a concrete input: `/outside/file` with allowed base
`/ws` is rejected with the message listing `/ws`. -/
theorem sanitize_path_absolute_unmatched_witness :
    (parsePath "/outside/file").isAbs = true
    ∧ (sanitize_path normResolve "/outside/file"
        [{ isAbs := true, comps := ["ws"] }] true true).ok = false
    ∧ (sanitize_path normResolve "/outside/file"
        [{ isAbs := true, comps := ["ws"] }] true true).resolved = none
    ∧ (sanitize_path normResolve "/outside/file"
        [{ isAbs := true, comps := ["ws"] }] true true).msg
        = "Path not within allowed directories: /outside/file"
            ++ "\nAllowed bases: "
            ++ String.intercalate ", "
                ([{ isAbs := true, comps := ["ws"] }].map ppathStr) := by
  have h := sanitize_path_absolute_unmatched normResolve "/outside/file"
    [{ isAbs := true, comps := ["ws"] }] true (by decide) (by decide)
  exact ⟨by decide, h.1.1, h.1.2, h.2 (by decide) (by decide)⟩

/-- Counterexample to C2 as stated: over the symlink-free model filesystem,
the relative path `a/../b` joined against the single allowed base `/ws`
resolves to `/ws/b`, inside the base — yet `sanitize_path` rejects it,
because the unconditional `..`-segment check fires before base matching. -/
theorem sanitize_path_relative_claim_counterexample :
    (parsePath "a/../b").isAbs = false
    ∧ isDescendant
        (resolveAgainst normResolve true { isAbs := true, comps := ["ws"] }
          (parsePath "a/../b"))
        (normResolve { isAbs := true, comps := ["ws"] }) = true
    ∧ (sanitize_path normResolve "a/../b" [{ isAbs := true, comps := ["ws"] }]
        false true).ok = false := by
  decide

/-- C2 (amended): for relative input, (a) if the candidate resolved against
every allowed base falls outside that base, `sanitize_path` rejects; (b) if
the input additionally passes the syntactic pre-checks (non-empty, within
the length bound, no `..` segment) and resolves inside exactly one allowed
base, `sanitize_path` accepts and returns the candidate resolved against
that base (the first matching base wins). -/
theorem sanitize_path_relative_confinement (fs : PPath → PPath) (path : String)
    (allowedBases : List PPath) (allowAbsolute followSymlinks : Bool)
    (hrel : (parsePath path).isAbs = false) :
    ((∀ b ∈ allowedBases,
        isDescendant (resolveAgainst fs followSymlinks b (parsePath path))
          (fs b) = false) →
      (sanitize_path fs path allowedBases allowAbsolute followSymlinks).ok
        = false)
    ∧ (∀ b ∈ allowedBases,
        path ≠ "" →
        path.length ≤ MAX_PATH_LENGTH →
        (parsePath path).comps.contains ".." = false →
        isDescendant (resolveAgainst fs followSymlinks b (parsePath path))
          (fs b) = true →
        (∀ b' ∈ allowedBases,
          isDescendant (resolveAgainst fs followSymlinks b' (parsePath path))
            (fs b') = true → b' = b) →
        (sanitize_path fs path allowedBases allowAbsolute followSymlinks).ok
          = true
        ∧ (sanitize_path fs path allowedBases allowAbsolute
            followSymlinks).resolved
            = some (resolveAgainst fs followSymlinks b (parsePath path))) := by
  constructor
  · intro hout
    have hfind := findBase_none fs (parsePath path) followSymlinks allowedBases
      hout
    simp only [sanitize_path]
    split_ifs
    all_goals try rfl
    simp [hfind]
  · intro b hmem hne hlen hdd hmatch huniq
    have hfind := findBase_unique_match fs (parsePath path) followSymlinks
      allowedBases b hmem hmatch huniq
    simp only [sanitize_path]
    split_ifs with h1 h2 h3 h4
    · exact absurd h1 hne
    · exact absurd h2 (by omega)
    · rw [hrel] at h3
      simp at h3
    · rw [hdd] at h4
      cases h4
    · simp only [hfind]
      exact ⟨trivial, trivial⟩

/-- Witness for the amended C2 at a concrete input: `sub/data.txt` against
the single allowed base `/ws` is accepted with resolved path
`/ws/sub/data.txt`. -/
theorem sanitize_path_relative_confinement_witness :
    (sanitize_path normResolve "sub/data.txt"
        [{ isAbs := true, comps := ["ws"] }] false true).ok = true
    ∧ (sanitize_path normResolve "sub/data.txt"
        [{ isAbs := true, comps := ["ws"] }] false true).resolved
        = some { isAbs := true, comps := ["ws", "sub", "data.txt"] } := by
  have h := (sanitize_path_relative_confinement normResolve "sub/data.txt"
    [{ isAbs := true, comps := ["ws"] }] false true (by decide)).2
    { isAbs := true, comps := ["ws"] } (by decide) (by decide) (by decide)
    (by decide) (by decide) (by decide)
  exact ⟨h.1, h.2⟩

theorem detect_prompt_injection_iff (value : String) :
    detect_prompt_injection value = true
      ↔ ∃ p ∈ promptInjectionPhrases, ∃ pre suf : List Char,
          (lowerStr value).data = pre ++ p.data ++ suf := by
  simp only [detect_prompt_injection, List.any_eq_true, containsSub_iff]

/-- C10: prompt-injection detection is a bare case-insensitive substring
match.  (a) Whenever the lower-cased value contains one of the six fixed
phrases anywhere, `sanitize_string_value` with injection checking on rejects
the value.  (b) Whenever none of the phrases occurs, any rejection is due to
length or null bytes — never injection — and a value passing those checks is
accepted unchanged. -/
theorem sanitize_string_value_injection (value : String) (maxLength : Option Nat) :
    ((∃ p ∈ promptInjectionPhrases, ∃ pre suf : List Char,
        (lowerStr value).data = pre ++ p.data ++ suf) →
      (sanitize_string_value value maxLength true).1 = false)
    ∧ ((¬ ∃ p ∈ promptInjectionPhrases, ∃ pre suf : List Char,
        (lowerStr value).data = pre ++ p.data ++ suf) →
      ((sanitize_string_value value maxLength true).1 = false →
        effectiveMaxLen maxLength < value.length
        ∨ value.data.contains (Char.ofNat 0) = true)
      ∧ (value.length ≤ effectiveMaxLen maxLength →
         value.data.contains (Char.ofNat 0) = false →
         sanitize_string_value value maxLength true = (true, value, ""))) := by
  constructor
  · intro hphrase
    have hdet : detect_prompt_injection value = true :=
      (detect_prompt_injection_iff value).mpr hphrase
    simp only [sanitize_string_value]
    split_ifs with h1 h2 h3
    · rfl
    · rfl
    · rfl
    · exact h3 (by simp [hdet])
  · intro hno
    have hdet : detect_prompt_injection value = false := by
      cases hv : detect_prompt_injection value
      · rfl
      · exact absurd ((detect_prompt_injection_iff value).mp hv) hno
    constructor
    · intro hrej
      simp only [sanitize_string_value] at hrej
      split_ifs at hrej with h1 h2 h3
      · exact Or.inl h1
      · exact Or.inr h2
      · rw [hdet] at h3
        simp at h3
    · intro hlen hnull
      simp only [sanitize_string_value]
      split_ifs with h1 h2 h3
      · exact absurd h1 (by omega)
      · rw [hnull] at h2
        cases h2
      · rw [hdet] at h3
        simp at h3
      · rfl

/-- Witness for C10 at concrete inputs: a string containing `IGNORE` inside
an ordinary sentence is rejected, and a phrase-free string is accepted. -/
theorem sanitize_string_value_injection_witness :
    (sanitize_string_value "the IGNORED files list" none true).1 = false
    ∧ sanitize_string_value "a harmless value" none true
        = (true, "a harmless value", "") := by
  constructor
  · exact (sanitize_string_value_injection "the IGNORED files list" none).1
      ⟨"ignore", by decide, "the ".data, "d files list".data, by decide⟩
  · refine ((sanitize_string_value_injection "a harmless value" none).2 ?_).2
      (by decide) (by decide)
    rw [show (∃ p ∈ promptInjectionPhrases, ∃ pre suf : List Char,
        (lowerStr "a harmless value").data = pre ++ p.data ++ suf)
      ↔ detect_prompt_injection "a harmless value" = true
      from (detect_prompt_injection_iff "a harmless value").symm]
    decide

/-- Counterexample to C8 as stated: under a sensitive key, redacting the
8-character value `abcdefgh` with style `partial` does not retain its first
and last 3 characters — `_redact_string` requires `len(value) > 8` for the
partial form and otherwise falls through to the full placeholder, which
shares no characters with the value. -/
theorem redact_partial_short_counterexample :
    redactString "abcdefgh" "partial" "key:password" = "***REDACTED***"
    ∧ containsSub "abc".data "***REDACTED***".data = false
    ∧ containsSub "fgh".data "***REDACTED***".data = false := by
  decide

/-- C8 (amended): for a string value under a sensitive key, `redact_dict`
applies `_redact_string` with reason `key:<key>`; style `full` yields the
fixed placeholder `***REDACTED***` independent of the value; style `partial`
retains exactly the first 3 and last 3 characters (joined by `***`) when the
value is longer than 8 characters and yields the fixed placeholder
otherwise; style `hint` yields `<redacted:<n>_chars:<reason>>`, which
contains the value's length and depends on the value only through that
length. -/
theorem redaction_styles (value reason key : String) (extraKeys : List String)
    (patternHit : String → Option String) (scanValues : Bool)
    (hkey : isSensitiveKey extraKeys key = true) :
    (∀ style : String,
      redactEntries patternHit extraKeys style scanValues
          [(key, PyVal.str value)]
        = [(key, PyVal.str (redactString value style ("key:" ++ key)))])
    ∧ redactString value "full" reason = "***REDACTED***"
    ∧ (8 < value.length →
        redactString value "partial" reason
          = String.mk (value.data.take 3) ++ "***"
              ++ String.mk (value.data.drop (value.length - 3)))
    ∧ (value.length ≤ 8 →
        redactString value "partial" reason = "***REDACTED***")
    ∧ redactString value "hint" reason
        = "<redacted:" ++ toString value.length ++ "_chars:" ++ reason
            ++ ">"
    ∧ containsSub (toString value.length).data
        (redactString value "hint" reason).data = true := by
  refine ⟨?_, ?_, ?_, ?_, ?_, ?_⟩
  · intro style
    simp [redactEntries, redactEntry, hkey]
  · simp [redactString]
  · intro h
    simp [redactString, h]
  · intro h
    have h2 : ¬(8 < value.length) := by omega
    simp [redactString, h2]
  · simp [redactString]
  · have h5 : redactString value "hint" reason
        = "<redacted:" ++ toString value.length ++ "_chars:" ++ reason
            ++ ">" := by simp [redactString]
    rw [h5]
    apply (containsSub_iff _ _).mpr
    refine ⟨"<redacted:".data, "_chars:".data ++ reason.data ++ ">".data, ?_⟩
    simp [String.data_append, List.append_assoc]

/-- Witness for the amended C8 at a concrete input: key `password` is
sensitive; the 12-character value `abc123xyz789` gets the partial form,
and the full/hint forms are as stated. -/
theorem redaction_styles_witness :
    isSensitiveKey [] "password" = true
    ∧ redactString "abc123xyz789" "full" "key:password" = "***REDACTED***"
    ∧ 8 < "abc123xyz789".length
    ∧ redactString "abc123xyz789" "partial" "key:password"
        = String.mk ("abc123xyz789".data.take 3) ++ "***"
            ++ String.mk ("abc123xyz789".data.drop
                ("abc123xyz789".length - 3))
    ∧ redactString "abc123xyz789" "hint" "key:password"
        = "<redacted:" ++ toString "abc123xyz789".length ++ "_chars:"
            ++ "key:password" ++ ">" := by
  have h := redaction_styles "abc123xyz789" "key:password" "password" []
    (fun _ => none) true (by decide)
  exact ⟨by decide, h.2.1, by decide, h.2.2.1 (by decide), h.2.2.2.2.1⟩

/-- Counterexample to C9 as stated: a re-scan of a shell script whose tool
is enabled and already has user-set parameters and interactive flag does
not leave those fields unchanged — `_analyze_shell_script` overwrites
`parameters` with the newly detected ones and always overwrites
`interactive`.  (The non-empty user description is preserved.) -/
theorem discovery_shell_overwrite_counterexample :
    sampleShellConfig.enabled = true
    ∧ sampleShellConfig.parameters ≠ []
    ∧ analyzeShellScriptUpdate (some sampleShellConfig) sampleShellMetadata
        "backup_run" "backup/run.sh"
        = some (mergeShellExisting sampleShellConfig sampleShellMetadata)
    ∧ (mergeShellExisting sampleShellConfig sampleShellMetadata).parameters
        ≠ sampleShellConfig.parameters
    ∧ (mergeShellExisting sampleShellConfig sampleShellMetadata).interactive
        ≠ sampleShellConfig.interactive := by
  decide

/-- C9 (amended): a discovery re-scan leaves a disabled existing tool
entirely untouched (for both script kinds); for an enabled existing tool
the description is filled only when currently empty and a non-empty
description is never overwritten; the Python analyzer changes nothing else;
the shell analyzer keeps identity/control fields unchanged but overwrites
`parameters` and `examples` whenever detection yields a non-empty list and
always overwrites `interactive` with the detected flag. -/
theorem discovery_merge_policy (cfg : ScriptConfig) (pmd : PythonMetadata)
    (smd : ShellMetadata) (scriptName relativePath : String) :
    (cfg.enabled = false →
      analyzeShellScriptUpdate (some cfg) smd scriptName relativePath = none
      ∧ analyzePythonScriptUpdate (some cfg) pmd scriptName relativePath = none)
    ∧ (cfg.enabled = true →
      analyzeShellScriptUpdate (some cfg) smd scriptName relativePath
        = some (mergeShellExisting cfg smd)
      ∧ analyzePythonScriptUpdate (some cfg) pmd scriptName relativePath
        = some (mergePythonExisting cfg pmd))
    ∧ (cfg.description ≠ "" → mergePythonExisting cfg pmd = cfg)
    ∧ (cfg.description = "" → pmd.description ≠ "" →
        mergePythonExisting cfg pmd = { cfg with description := pmd.description })
    ∧ (cfg.description = "" → pmd.description = "" →
        mergePythonExisting cfg pmd = cfg)
    ∧ ((mergeShellExisting cfg smd).name = cfg.name
      ∧ (mergeShellExisting cfg smd).script_path = cfg.script_path
      ∧ (mergeShellExisting cfg smd).script_type = cfg.script_type
      ∧ (mergeShellExisting cfg smd).requires_confirmation
          = cfg.requires_confirmation
      ∧ (mergeShellExisting cfg smd).enabled = cfg.enabled
      ∧ (mergeShellExisting cfg smd).dependencies = cfg.dependencies
      ∧ (mergeShellExisting cfg smd).tags = cfg.tags
      ∧ (mergeShellExisting cfg smd).workspace_config = cfg.workspace_config)
    ∧ (cfg.description ≠ "" →
        (mergeShellExisting cfg smd).description = cfg.description)
    ∧ (mergeShellExisting cfg smd).parameters
        = (if smd.parameters = [] then cfg.parameters else smd.parameters)
    ∧ (mergeShellExisting cfg smd).interactive = smd.interactive
    ∧ (mergeShellExisting cfg smd).examples
        = (if smd.examples = [] then cfg.examples else smd.examples) := by
  refine ⟨?_, ?_, ?_, ?_, ?_, ?_, ?_, ?_, ?_, ?_⟩
  · intro hdis
    constructor
    · simp [analyzeShellScriptUpdate, hdis]
    · simp [analyzePythonScriptUpdate, hdis]
  · intro hen
    constructor
    · simp [analyzeShellScriptUpdate, hen]
    · simp [analyzePythonScriptUpdate, hen]
  · intro hdesc
    simp [mergePythonExisting, hdesc]
  · intro hd1 hd2
    simp [mergePythonExisting, hd1, hd2]
  · intro hd1 hd2
    simp [mergePythonExisting, hd1, hd2]
  · unfold mergeShellExisting
    split_ifs <;> simp_all
  · intro hdesc
    unfold mergeShellExisting
    split_ifs <;> simp_all
  · unfold mergeShellExisting
    split_ifs <;> simp_all
  · unfold mergeShellExisting
    split_ifs <;> simp_all
  · unfold mergeShellExisting
    split_ifs <;> simp_all

/-- Witness for the amended C9 at concrete inputs: the sample enabled tool
keeps its non-empty description, but its parameters are overwritten by the
detected ones and its interactive flag is overwritten. -/
theorem discovery_merge_policy_witness :
    sampleShellConfig.enabled = true
    ∧ analyzeShellScriptUpdate (some sampleShellConfig) sampleShellMetadata
        "backup_run" "backup/run.sh"
        = some (mergeShellExisting sampleShellConfig sampleShellMetadata)
    ∧ (mergeShellExisting sampleShellConfig sampleShellMetadata).description
        = sampleShellConfig.description
    ∧ (mergeShellExisting sampleShellConfig sampleShellMetadata).parameters
        = (if sampleShellMetadata.parameters = []
            then sampleShellConfig.parameters
            else sampleShellMetadata.parameters)
    ∧ (mergeShellExisting sampleShellConfig sampleShellMetadata).interactive
        = sampleShellMetadata.interactive := by
  have h := discovery_merge_policy sampleShellConfig
    { description := "", parameters := [], examples := [],
      dependencies := [], interactive := false }
    sampleShellMetadata "backup_run" "backup/run.sh"
  exact ⟨by decide, (h.2.1 (by decide)).1, h.2.2.2.2.2.2.1 (by decide),
    h.2.2.2.2.2.2.2.1, h.2.2.2.2.2.2.2.2.1⟩

/-- C1 is violated by the code: when `ExecutionController.acquire` succeeds
and security validation then fails — or the script file is missing — the
`return` happens after `acquire` but before the `try`/`finally` block, so
`release` is never called and the semaphore slot leaks.  This theorem
evaluates the embedded executor at both failing inputs: each run records
one `acquireSlot` event and zero `releaseSlot` events. -/
theorem executor_slot_leak_on_security_failure :
    ((execute_script_structured
        { baseExecEnv with security_errors := ["Path validation failed"] }
        "backup_run" [("confirm", PyLit.pyBool true)]).1.error_type
      = some "security_validation")
    ∧ (execute_script_structured
        { baseExecEnv with security_errors := ["Path validation failed"] }
        "backup_run" [("confirm", PyLit.pyBool true)]).2.count
          ExecEvent.acquireSlot = 1
    ∧ (execute_script_structured
        { baseExecEnv with security_errors := ["Path validation failed"] }
        "backup_run" [("confirm", PyLit.pyBool true)]).2.count
          ExecEvent.releaseSlot = 0
    ∧ ((execute_script_structured { baseExecEnv with scriptExists := false }
        "backup_run" [("confirm", PyLit.pyBool true)]).1.error_type
      = some "validation")
    ∧ (execute_script_structured { baseExecEnv with scriptExists := false }
        "backup_run" [("confirm", PyLit.pyBool true)]).2.count
          ExecEvent.acquireSlot = 1
    ∧ (execute_script_structured { baseExecEnv with scriptExists := false }
        "backup_run" [("confirm", PyLit.pyBool true)]).2.count
          ExecEvent.releaseSlot = 0 := by
  decide

/-- C6: for an enabled tool requiring confirmation, a call whose arguments
lack a truthy `confirm` value returns `confirmation_required` with
`success = false`, and its event trace is empty — no admission slot is
acquired and no subprocess is ever spawned. -/
theorem executor_confirmation_gate (env : ExecEnv) (scriptName : String)
    (arguments : List (String × PyLit)) (cfg : ScriptConfig)
    (hcfg : env.script_config = some cfg)
    (hen : cfg.enabled = true)
    (hreq : cfg.requires_confirmation = true)
    (hconf : (argGet arguments "confirm" (PyLit.pyBool false)).truthy = false) :
    (execute_script_structured env scriptName arguments).1.error_type
      = some "confirmation_required"
    ∧ (execute_script_structured env scriptName arguments).1.success = false
    ∧ (execute_script_structured env scriptName arguments).2 = [] := by
  simp [execute_script_structured, hcfg, hen, hreq, hconf]

/-- Witness for C6 at a concrete input: calling the sample tool with no
arguments is gated on confirmation and performs no events. -/
theorem executor_confirmation_gate_witness :
    (execute_script_structured baseExecEnv "backup_run" []).1.error_type
      = some "confirmation_required"
    ∧ (execute_script_structured baseExecEnv "backup_run" []).1.success = false
    ∧ (execute_script_structured baseExecEnv "backup_run" []).2 = [] :=
  executor_confirmation_gate baseExecEnv "backup_run" [] sampleShellConfig
    rfl (by decide) (by decide) (by decide)

/-- C7: when the subprocess exceeds the timeout, the executor kills then
reaps the child, reports `timeout` with `success = false`, and releases the
admission slot in the `finally` — the trace is exactly acquire, spawn, kill,
reap, release, so the released count matches the acquired count and no slot
leaks. -/
theorem executor_timeout_releases_slot (env : ExecEnv) (scriptName : String)
    (arguments : List (String × PyLit)) (cfg : ScriptConfig)
    (hcfg : env.script_config = some cfg)
    (hen : cfg.enabled = true)
    (hconf : (cfg.requires_confirmation
        && !(argGet arguments "confirm" (PyLit.pyBool false)).truthy) = false)
    (hrate : env.rateAllowed = true)
    (hsec : env.security_errors = [])
    (hex : env.scriptExists = true)
    (hraise : env.shellRaised = none)
    (hout : env.subOutcome = SubOutcome.timedOut) :
    (execute_script_structured env scriptName arguments).1.error_type
      = some "timeout"
    ∧ (execute_script_structured env scriptName arguments).1.success = false
    ∧ (execute_script_structured env scriptName arguments).1.stderr
        = "Script execution timed out after " ++ toString env.timeout_seconds
            ++ " seconds"
    ∧ (execute_script_structured env scriptName arguments).2
        = [ExecEvent.acquireSlot, ExecEvent.spawnProcess, ExecEvent.killProcess,
           ExecEvent.waitProcess, ExecEvent.releaseSlot]
    ∧ (execute_script_structured env scriptName arguments).2.count
          ExecEvent.releaseSlot
        = (execute_script_structured env scriptName arguments).2.count
            ExecEvent.acquireSlot := by
  simp [execute_script_structured, controllerAcquire, run_subprocess_structured,
    hcfg, hen, hconf, hrate, hsec, hex, hraise, hout]

/-- Witness for C7 at a concrete input: the sample tool with a confirmed
call and a timed-out subprocess. -/
theorem executor_timeout_releases_slot_witness :
    (execute_script_structured { baseExecEnv with subOutcome := SubOutcome.timedOut }
        "backup_run" [("confirm", PyLit.pyBool true)]).1.error_type
      = some "timeout"
    ∧ (execute_script_structured
        { baseExecEnv with subOutcome := SubOutcome.timedOut }
        "backup_run" [("confirm", PyLit.pyBool true)]).1.success = false
    ∧ (execute_script_structured
        { baseExecEnv with subOutcome := SubOutcome.timedOut }
        "backup_run" [("confirm", PyLit.pyBool true)]).1.stderr
        = "Script execution timed out after "
            ++ toString ({ baseExecEnv with
                subOutcome := SubOutcome.timedOut } : ExecEnv).timeout_seconds
            ++ " seconds"
    ∧ (execute_script_structured
        { baseExecEnv with subOutcome := SubOutcome.timedOut }
        "backup_run" [("confirm", PyLit.pyBool true)]).2
        = [ExecEvent.acquireSlot, ExecEvent.spawnProcess, ExecEvent.killProcess,
           ExecEvent.waitProcess, ExecEvent.releaseSlot]
    ∧ (execute_script_structured
        { baseExecEnv with subOutcome := SubOutcome.timedOut }
        "backup_run" [("confirm", PyLit.pyBool true)]).2.count
          ExecEvent.releaseSlot
        = (execute_script_structured
            { baseExecEnv with subOutcome := SubOutcome.timedOut }
            "backup_run" [("confirm", PyLit.pyBool true)]).2.count
            ExecEvent.acquireSlot :=
  executor_timeout_releases_slot
    { baseExecEnv with subOutcome := SubOutcome.timedOut } "backup_run"
    [("confirm", PyLit.pyBool true)] sampleShellConfig rfl (by decide)
    (by decide) rfl rfl rfl rfl rfl

theorem dropOldAux_noop (ws : ℚ) (l : List ℚ) (h : ∀ x ∈ l, ¬ x < ws) :
    dropOldAux ws l = l := by
  induction l with
  | nil => rfl
  | cons t ts ih =>
      simp only [dropOldAux, if_neg (h t (List.mem_cons_self t ts))]

theorem check_rate_limit_allowed {τ : Type} [DecidableEq τ]
    (rl : RateLimiter τ) (tool : τ) (now : ℚ)
    (hen : rl.enabled = true) (hwin : rl.window_seconds = 60)
    (hkeep : dropOldAux (now - 60) (rl.executions tool) = rl.executions tool)
    (hlt : (rl.executions tool).length < rl.max_per_minute) :
    (check_rate_limit rl tool now).1 = true
    ∧ (check_rate_limit rl tool now).2.1 = none
    ∧ (check_rate_limit rl tool now).2.2.executions tool
        = rl.executions tool ++ [now]
    ∧ (check_rate_limit rl tool now).2.2.max_per_minute = rl.max_per_minute
    ∧ (check_rate_limit rl tool now).2.2.enabled = rl.enabled
    ∧ (check_rate_limit rl tool now).2.2.window_seconds = rl.window_seconds := by
  simp [check_rate_limit, hen, hwin, hkeep, Nat.not_le.mpr hlt]

theorem check_rate_limit_rejected {τ : Type} [DecidableEq τ]
    (rl : RateLimiter τ) (tool : τ) (now : ℚ) (oldest : ℚ) (tl : List ℚ)
    (hen : rl.enabled = true) (hwin : rl.window_seconds = 60)
    (hkeep : dropOldAux (now - 60) (rl.executions tool) = rl.executions tool)
    (hshape : rl.executions tool = oldest :: tl)
    (hge : rl.max_per_minute ≤ (rl.executions tool).length) :
    (check_rate_limit rl tool now).1 = false
    ∧ (check_rate_limit rl tool now).2.1 = some (oldest + 60 - now)
    ∧ (check_rate_limit rl tool now).2.2.executions tool = rl.executions tool
    ∧ (check_rate_limit rl tool now).2.2.max_per_minute = rl.max_per_minute
    ∧ (check_rate_limit rl tool now).2.2.enabled = rl.enabled
    ∧ (check_rate_limit rl tool now).2.2.window_seconds = rl.window_seconds := by
  rw [hshape] at hkeep hge
  simp only [List.length_cons] at hge
  simp [check_rate_limit, hen, hwin, hkeep, hshape, hge]

theorem runSeq_spec {τ : Type} [DecidableEq τ] (N : Nat) (t0 : ℚ)
    (tool : τ) :
    ∀ (ts : List ℚ) (rl : RateLimiter τ) (prest : List ℚ),
    rl.max_per_minute = N → rl.enabled = true → rl.window_seconds = 60 →
    rl.executions tool = t0 :: prest →
    (∀ x ∈ t0 :: prest, t0 ≤ x) →
    (t0 :: prest).length ≤ N →
    (∀ x ∈ ts, t0 ≤ x ∧ x ≤ t0 + 1) →
    (runSeq rl tool ts).1 = expectedResults N (t0 :: prest).length t0 ts
    ∧ (runSeq rl tool ts).2.max_per_minute = N
    ∧ (runSeq rl tool ts).2.enabled = true := by
  intro ts
  induction ts with
  | nil =>
      intro rl prest hmax hen hwin hexec hprev hlen hts
      exact ⟨rfl, hmax, hen⟩
  | cons now rest ih =>
      intro rl prest hmax hen hwin hexec hprev hlen hts
      have hnow := hts now (List.mem_cons_self now rest)
      have hkeep : dropOldAux (now - 60) (rl.executions tool)
          = rl.executions tool := by
        apply dropOldAux_noop
        intro x hx
        rw [hexec] at hx
        have hx0 := hprev x hx
        have : now - 60 < t0 := by linarith [hnow.2]
        linarith
      by_cases hfull : (t0 :: prest).length < N
      · -- admitted: the timestamp is recorded
        have hstep := check_rate_limit_allowed rl tool now hen hwin hkeep
          (by rw [hexec, hmax]; exact hfull)
        have hrec := ih (check_rate_limit rl tool now).2.2 (prest ++ [now])
          (by rw [hstep.2.2.2.1, hmax])
          (by rw [hstep.2.2.2.2.1, hen])
          (by rw [hstep.2.2.2.2.2, hwin])
          (by rw [hstep.2.2.1, hexec]; rfl)
          (by
            intro x hx
            rcases List.mem_cons.mp hx with rfl | hx2
            · exact le_refl x
            · rcases List.mem_append.mp hx2 with hx3 | hx4
              · exact hprev x (List.mem_cons_of_mem t0 hx3)
              · rw [List.mem_singleton.mp hx4]
                exact hnow.1)
          (by simpa using hfull)
          (fun x hx => hts x (List.mem_cons_of_mem now hx))
        refine ⟨?_, ?_, ?_⟩
        · simp only [runSeq, hstep.1, hstep.2.1]
          rw [hrec.1]
          simp only [expectedResults, if_pos hfull]
          simp [List.length_append]
        · simp only [runSeq]
          exact hrec.2.1
        · simp only [runSeq]
          exact hrec.2.2
      · -- at the cap: rejected with the wait until `t0` leaves the window
        have hge : rl.max_per_minute ≤ (rl.executions tool).length := by
          rw [hexec, hmax]
          omega
        have hstep := check_rate_limit_rejected rl tool now t0 prest hen hwin
          hkeep hexec hge
        have hrec := ih (check_rate_limit rl tool now).2.2 prest
          (by rw [hstep.2.2.2.1, hmax])
          (by rw [hstep.2.2.2.2.1, hen])
          (by rw [hstep.2.2.2.2.2, hwin])
          (by rw [hstep.2.2.1, hexec])
          hprev hlen
          (fun x hx => hts x (List.mem_cons_of_mem now hx))
        refine ⟨?_, ?_, ?_⟩
        · simp only [runSeq, hstep.1, hstep.2.1]
          rw [hrec.1]
          simp only [expectedResults, if_neg hfull]
        · simp only [runSeq]
          exact hrec.2.1
        · simp only [runSeq]
          exact hrec.2.2

theorem expectedResults_count_allowed (N : Nat) (t0 : ℚ) :
    ∀ (ts : List ℚ) (r : Nat),
    List.countP (fun p => p.1) (expectedResults N r t0 ts)
      = min (N - r) ts.length := by
  intro ts
  induction ts with
  | nil => intro r; simp [expectedResults]
  | cons now rest ih =>
      intro r
      by_cases hr : r < N
      · simp [expectedResults, hr, List.countP_cons, ih]
        omega
      · simp [expectedResults, hr, List.countP_cons, ih]
        omega

theorem expectedResults_count_rejected (N : Nat) (t0 : ℚ) :
    ∀ (ts : List ℚ) (r : Nat),
    List.countP (fun p => !p.1) (expectedResults N r t0 ts)
      = ts.length - (N - r) := by
  intro ts
  induction ts with
  | nil => intro r; simp [expectedResults]
  | cons now rest ih =>
      intro r
      by_cases hr : r < N
      · simp [expectedResults, hr, List.countP_cons, ih]
        omega
      · simp [expectedResults, hr, List.countP_cons, ih]
        omega


theorem check_after_reset {τ : Type} [DecidableEq τ] (rl : RateLimiter τ)
    (tool : τ) (now : ℚ) (hen : rl.enabled = true)
    (hpos : 0 < rl.max_per_minute) :
    (check_rate_limit (rateLimiterReset rl (some tool)) tool now).1 = true := by
  simp [check_rate_limit, rateLimiterReset, hen, dropOldAux]
  rw [if_neg (by omega : ¬ rl.max_per_minute = 0)]

/-- C5: starting from a fresh enabled rate limiter with per-minute cap
`N > 0`, a sequence of `N + 2` `check_rate_limit` calls for one tool, the
first at time `t0` and all within one second of it, produces exactly the
outcomes of `expectedResults N 0 t0`: the first `N` calls are admitted and
every further call is rejected with wait time `t0 + 60 - now` (the time
until the oldest recorded stamp leaves the 60-second window) — so exactly
`N` admissions and `2` rejections — and after `reset(tool)` the very next
call for that tool is admitted, at any time. -/
theorem rate_limiter_n_plus_two (N : Nat) (hN : 0 < N) {τ : Type}
    [DecidableEq τ] (tool : τ) (t0 : ℚ) (rest : List ℚ)
    (hlen : rest.length = N + 1)
    (hts : ∀ x ∈ rest, t0 ≤ x ∧ x ≤ t0 + 1) :
    (runSeq (rateLimiterInit τ N) tool (t0 :: rest)).1
      = expectedResults N 0 t0 (t0 :: rest)
    ∧ List.countP (fun p => p.1)
        ((runSeq (rateLimiterInit τ N) tool (t0 :: rest)).1) = N
    ∧ List.countP (fun p => !p.1)
        ((runSeq (rateLimiterInit τ N) tool (t0 :: rest)).1) = 2
    ∧ (∀ now2 : ℚ,
        (check_rate_limit
          (rateLimiterReset ((runSeq (rateLimiterInit τ N) tool (t0 :: rest)).2)
            (some tool)) tool now2).1 = true) := by
  have hstep0 := check_rate_limit_allowed (rateLimiterInit τ N) tool t0
    rfl rfl rfl (by simpa [rateLimiterInit] using hN)
  have hrec := runSeq_spec N t0 tool rest
    (check_rate_limit (rateLimiterInit τ N) tool t0).2.2 []
    (by rw [hstep0.2.2.2.1]; rfl)
    (by rw [hstep0.2.2.2.2.1]; rfl)
    (by rw [hstep0.2.2.2.2.2]; rfl)
    (by rw [hstep0.2.2.1]; rfl)
    (by intro x hx; rw [List.mem_singleton.mp hx])
    (by simpa using hN)
    hts
  have hmain : (runSeq (rateLimiterInit τ N) tool (t0 :: rest)).1
      = expectedResults N 0 t0 (t0 :: rest) := by
    simp only [runSeq, hstep0.1, hstep0.2.1]
    rw [hrec.1]
    simp only [expectedResults, if_pos hN]
    rfl
  refine ⟨hmain, ?_, ?_, ?_⟩
  · rw [hmain, expectedResults_count_allowed]
    simp only [List.length_cons, hlen]
    omega
  · rw [hmain, expectedResults_count_rejected]
    simp only [List.length_cons, hlen]
    omega
  · intro now2
    have hfin : (runSeq (rateLimiterInit τ N) tool (t0 :: rest)).2
        = (runSeq (check_rate_limit (rateLimiterInit τ N) tool t0).2.2
            tool rest).2 := by
      simp only [runSeq]
    have hen2 : ((runSeq (rateLimiterInit τ N) tool (t0 :: rest)).2).enabled
        = true := by
      rw [hfin]; exact hrec.2.2
    have hmax2 : ((runSeq (rateLimiterInit τ N) tool
        (t0 :: rest)).2).max_per_minute = N := by
      rw [hfin]; exact hrec.2.1
    exact check_after_reset _ tool now2 hen2 (by rw [hmax2]; exact hN)

/-- Witness for C5 at a concrete input: cap 2, four calls at times
0, 1/4, 1/2, 1 — two admissions, then two rejections, and after a reset the
next check (at time 30) is admitted. -/
theorem rate_limiter_n_plus_two_witness :
    (runSeq (rateLimiterInit Nat 2) 0 [0, (1:ℚ)/4, 1/2, 1]).1
      = expectedResults 2 0 0 [0, (1:ℚ)/4, 1/2, 1]
    ∧ List.countP (fun p => p.1)
        ((runSeq (rateLimiterInit Nat 2) 0 [0, (1:ℚ)/4, 1/2, 1]).1) = 2
    ∧ List.countP (fun p => !p.1)
        ((runSeq (rateLimiterInit Nat 2) 0 [0, (1:ℚ)/4, 1/2, 1]).1) = 2
    ∧ (check_rate_limit
        (rateLimiterReset ((runSeq (rateLimiterInit Nat 2) 0
          [0, (1:ℚ)/4, 1/2, 1]).2) (some 0)) 0 30).1 = true := by
  have h := rate_limiter_n_plus_two 2 (by decide) 0 (0 : ℚ)
    [(1:ℚ)/4, 1/2, 1] (by decide)
    (by
      intro x hx
      fin_cases hx <;> norm_num)
  exact ⟨h.1, h.2.1, h.2.2.1, h.2.2.2 30⟩
